import Mathlib

/-!
Shallow embedding of the resource-lifecycle and device-selection core of the
VulkanTest repository (src/VulkanTest/HelloTriangleApplication.h and
src/VulkanTest/VDeleter.h).  Native Vulkan handles and query results are
modelled as immutable snapshot records; each embedded function mirrors one
member function of the source, statement by statement.
-/

namespace VulkanTest

/-! ### Vulkan constants used by the embedded code -/

/-- VK_NULL_HANDLE: the null sentinel for native handles (modelled as 0). -/
def VK_NULL_HANDLE : Nat := 0

/-- The uint32 all-ones value returned by std numeric limits max, the
any-size sentinel tested in chooseSwapExtent. -/
def UINT32_MAX : Nat := 4294967295

/-- VK_QUEUE_GRAPHICS_BIT from the Vulkan headers. -/
def VK_QUEUE_GRAPHICS_BIT : Nat := 1

/-- VK_PHYSICAL_DEVICE_TYPE_DISCRETE_GPU from the Vulkan headers. -/
def VK_PHYSICAL_DEVICE_TYPE_DISCRETE_GPU : Nat := 2

/-- VK_FORMAT_UNDEFINED from the Vulkan headers. -/
def VK_FORMAT_UNDEFINED : Nat := 0

/-- VK_FORMAT_B8G8R8A8_UNORM from the Vulkan headers. -/
def VK_FORMAT_B8G8R8A8_UNORM : Nat := 44

/-- VK_COLOR_SPACE_SRGB_NONLINEAR_KHR from the Vulkan headers. -/
def VK_COLOR_SPACE_SRGB_NONLINEAR_KHR : Nat := 0

/-- VK_KHR_SWAPCHAIN_EXTENSION_NAME from the Vulkan headers. -/
def VK_KHR_SWAPCHAIN_EXTENSION_NAME : String := "VK_KHR_swapchain"

/-- The WIDTH constant of HelloTriangleApplication. -/
def WIDTH : Nat := 800

/-- The HEIGHT constant of HelloTriangleApplication. -/
def HEIGHT : Nat := 600

/-- The deviceExtensions constant of HelloTriangleApplication: the required
device extensions. -/
def deviceExtensions : List String := [VK_KHR_SWAPCHAIN_EXTENSION_NAME]

/-! ### Data model -/

/-- VkExtent2D: a width and a height (uint32 each). -/
structure Extent2D where
  width : Nat
  height : Nat
deriving DecidableEq

/-- VkSurfaceFormatKHR: a format and a color space (both enums, modelled
as their numeric values). -/
structure SurfaceFormatKHR where
  format : Nat
  colorSpace : Nat
deriving DecidableEq

/-- The per-queue-family snapshot used by findQueueFamilies: the
VkQueueFamilyProperties fields it reads (queueCount, queueFlags) together
with the result of vkGetPhysicalDeviceSurfaceSupportKHR for this family
index against the application surface. -/
structure QueueFamilyProperties where
  queueCount : Nat
  queueFlags : Nat
  presentSupport : Bool
deriving DecidableEq

/-- QueueFamilyIndices from HelloTriangleApplication.h: graphics and
present family indices, both initialised to -1 (unset). -/
structure QueueFamilyIndices where
  graphicsFamily : Int := -1
  presentFamily : Int := -1
deriving DecidableEq

/-- QueueFamilyIndices::isComplete from the source: both indices are >= 0. -/
def QueueFamilyIndices.isComplete (q : QueueFamilyIndices) : Bool :=
  decide (q.graphicsFamily ≥ 0) && decide (q.presentFamily ≥ 0)

/-- VkSurfaceCapabilitiesKHR: the fields read by createSwapChain and
chooseSwapExtent. -/
structure SurfaceCapabilitiesKHR where
  minImageCount : Nat
  maxImageCount : Nat
  currentExtent : Extent2D
  minImageExtent : Extent2D
  maxImageExtent : Extent2D
deriving DecidableEq

/-- Immutable snapshot of one physical device as seen through the Vulkan
query calls the source makes: features, properties, queue families, the
device extension list, and the surface formats and present modes reported
for the application surface. -/
structure PhysicalDevice where
  geometryShader : Bool := false
  deviceType : Nat := 0
  maxImageDimension2D : Nat := 0
  queueFamilies : List QueueFamilyProperties := []
  availableExtensions : List String := []
  capabilities : SurfaceCapabilitiesKHR := ⟨0, 0, ⟨0, 0⟩, ⟨0, 0⟩, ⟨0, 0⟩⟩
  formats : List SurfaceFormatKHR := []
  presentModes : List Nat := []
deriving DecidableEq

/-- SwapChainSupportDetails from HelloTriangleApplication.h. -/
structure SwapChainSupportDetails where
  capabilities : SurfaceCapabilitiesKHR
  formats : List SurfaceFormatKHR
  presentModes : List Nat
deriving DecidableEq

/-! ### VDeleter (src/VulkanTest/VDeleter.h) -/

/-- The mutable state of a VDeleter: the stored native handle (0 is
VK_NULL_HANDLE). -/
structure VDeleter where
  object : Nat
deriving DecidableEq

/-- VDeleter::cleanup: if the stored object is not the null sentinel the
deleter (native destroy function) is invoked on it, and the stored object
is then reset to the null sentinel unconditionally.  The returned Nat is
the number of native-destroy calls this invocation performed.
VDeleter::replace first performs exactly this cleanup before handing out
the slot for a new value. -/
def VDeleter.cleanup (s : VDeleter) : VDeleter × Nat :=
  if s.object ≠ VK_NULL_HANDLE then ({ object := VK_NULL_HANDLE }, 1)
  else ({ object := VK_NULL_HANDLE }, 0)

/-! ### DeviceCandidateEvaluator (HelloTriangleApplication.h) -/

/-- The graphics condition of the findQueueFamilies loop body:
queueFamily.queueCount > 0 and the graphics bit set in queueFlags. -/
def hasGraphics (qf : QueueFamilyProperties) : Bool :=
  decide (qf.queueCount > 0) && decide (qf.queueFlags &&& VK_QUEUE_GRAPHICS_BIT ≠ 0)

/-- The present condition of the findQueueFamilies loop body:
queueFamily.queueCount > 0 and presentSupport reported for this index. -/
def hasPresent (qf : QueueFamilyProperties) : Bool :=
  decide (qf.queueCount > 0) && qf.presentSupport

/-- The loop of HelloTriangleApplication::findQueueFamilies: walk the
family list with counter i, assign graphicsFamily := i whenever the
graphics condition holds, then assign presentFamily := i whenever the
present condition holds, and break as soon as the indices are complete. -/
def findQueueFamiliesAux : List QueueFamilyProperties → Int → QueueFamilyIndices → QueueFamilyIndices
  | [], _, indices => indices
  | qf :: rest, i, indices =>
    let indAfterGraphics :=
      if hasGraphics qf then { indices with graphicsFamily := i } else indices
    let indAfterPresent :=
      if hasPresent qf then { indAfterGraphics with presentFamily := i } else indAfterGraphics
    if indAfterPresent.isComplete then indAfterPresent
    else findQueueFamiliesAux rest (i + 1) indAfterPresent

/-- HelloTriangleApplication::findQueueFamilies: run the scan loop from
index 0 with both indices unset. -/
def findQueueFamilies (d : PhysicalDevice) : QueueFamilyIndices :=
  findQueueFamiliesAux d.queueFamilies 0 {}

/-- Specification-side helper for the amended claim C2: the number of
queue families the scan examines, given flags saying whether each role is
already assigned on entry: the count runs to the first family at which
both roles have been matched, or through the whole list when that never
happens. -/
def stopCount : List QueueFamilyProperties → Bool → Bool → Nat
  | [], _, _ => 0
  | qf :: rest, g, p =>
    let g := g || hasGraphics qf
    let p := p || hasPresent qf
    if g && p then 1 else stopCount rest g p + 1

/-- Specification-side helper for the amended claim C2: the index
(counting from i) of the last entry of the list satisfying the predicate,
or the default when none does — last match wins. -/
def lastRoleIdx (pred : QueueFamilyProperties → Bool) :
    List QueueFamilyProperties → Int → Int → Int
  | [], _, dflt => dflt
  | qf :: rest, i, dflt => lastRoleIdx pred rest (i + 1) (if pred qf then i else dflt)

/-- HelloTriangleApplication::querySwapChainSupport: package the
capabilities, surface formats and present modes reported for the device. -/
def querySwapChainSupport (d : PhysicalDevice) : SwapChainSupportDetails :=
  { capabilities := d.capabilities, formats := d.formats, presentModes := d.presentModes }

/-- HelloTriangleApplication::checkDeviceExtensionSupport: build the set of
required extensions, erase from it every available extension name, and
report whether the remainder is empty. -/
def checkDeviceExtensionSupport (d : PhysicalDevice) : Bool :=
  (d.availableExtensions.foldl
    (fun requiredExtensions ext => requiredExtensions.filter (fun r => !(r == ext)))
    deviceExtensions).isEmpty

/-- HelloTriangleApplication::isDeviceSuitable: geometry-shader feature,
complete queue family indices, required extensions supported, and (when
the extensions are supported) nonempty format and present-mode lists. -/
def isDeviceSuitable (d : PhysicalDevice) : Bool :=
  if !d.geometryShader then false
  else
    let indices := findQueueFamilies d
    let extensionsSupported := checkDeviceExtensionSupport d
    let swapChainAdequate :=
      if extensionsSupported then
        let swapChainSupport := querySwapChainSupport d
        !swapChainSupport.formats.isEmpty && !swapChainSupport.presentModes.isEmpty
      else false
    indices.isComplete && extensionsSupported && swapChainAdequate

/-- HelloTriangleApplication::rateDeviceSuitability: 0 when unsuitable,
otherwise start from 1, add 100 when graphics and present families
coincide, add 1000 for a discrete GPU, then add maxImageDimension2D. -/
def rateDeviceSuitability (d : PhysicalDevice) : Int :=
  if !isDeviceSuitable d then 0
  else
    let score : Int := 1
    let indices := findQueueFamilies d
    let score := if indices.graphicsFamily = indices.presentFamily then score + 100 else score
    let score := if d.deviceType = VK_PHYSICAL_DEVICE_TYPE_DISCRETE_GPU then score + 1000 else score
    score + (d.maxImageDimension2D : Int)

/-! ### DeviceSelector (HelloTriangleApplication::pickPhysicalDevice) -/

/-- Insertion into the ascending ordered map std map from int to device:
keys kept sorted increasingly, an existing key has its value overwritten. -/
def mapInsert : List (Int × PhysicalDevice) → Int → PhysicalDevice → List (Int × PhysicalDevice)
  | [], k, v => [(k, v)]
  | (k0, v0) :: rest, k, v =>
    if k < k0 then (k, v) :: (k0, v0) :: rest
    else if k = k0 then (k, v) :: rest
    else (k0, v0) :: mapInsert rest k v

/-- HelloTriangleApplication::pickPhysicalDevice: throw when the
enumeration is empty; otherwise insert every device into the ordered map
keyed by its suitability score, then read the entry at candidates.begin()
(the one with the smallest key, since std map iterates in ascending key
order) and accept it when its score is positive, else throw.  The empty
match arm for the map is unreachable when the device list is nonempty and
exists only to keep the function total. -/
def pickPhysicalDevice (devices : List PhysicalDevice) : Except String PhysicalDevice :=
  if devices.isEmpty then
    Except.error "failed to find GPUs with Vulkan support!"
  else
    let candidates :=
      devices.foldl (fun m d => mapInsert m (rateDeviceSuitability d) d)
        ([] : List (Int × PhysicalDevice))
    match candidates with
    | [] => Except.error "failed to find GPUs with Vulkan support!"
    | (score, dev) :: _ =>
      if score > 0 then Except.ok dev
      else Except.error "failed to find a suitable GPU!"

/-! ### createLogicalDevice queue-create-info construction -/

/-- The fields of VkDeviceQueueCreateInfo populated by createLogicalDevice. -/
structure DeviceQueueCreateInfo where
  queueFamilyIndex : Int
  queueCount : Nat
deriving DecidableEq

/-- The contents, in iteration order, of the std set of int built from the
graphics and present family indices in createLogicalDevice: a sorted
deduplicated list. -/
def uniqueQueueFamilies (g p : Int) : List Int :=
  if g = p then [g] else if g < p then [g, p] else [p, g]

/-- The queue-create-info construction loop of
HelloTriangleApplication::createLogicalDevice: one VkDeviceQueueCreateInfo
with queueCount 1 per element of the unique queue family set. -/
def createQueueCreateInfos (d : PhysicalDevice) : List DeviceQueueCreateInfo :=
  let indices := findQueueFamilies d
  (uniqueQueueFamilies indices.graphicsFamily indices.presentFamily).map
    (fun queueFamily => { queueFamilyIndex := queueFamily, queueCount := 1 })

/-! ### SwapchainNegotiator -/

/-- The preferred surface format pair returned and searched for by
chooseSwapSurfaceFormat. -/
def preferredSurfaceFormat : SurfaceFormatKHR :=
  { format := VK_FORMAT_B8G8R8A8_UNORM, colorSpace := VK_COLOR_SPACE_SRGB_NONLINEAR_KHR }

/-- The loop condition of chooseSwapSurfaceFormat: an entry exactly equal
to the preferred format and color space pair. -/
def isPreferredFormat (f : SurfaceFormatKHR) : Bool :=
  f.format == VK_FORMAT_B8G8R8A8_UNORM && f.colorSpace == VK_COLOR_SPACE_SRGB_NONLINEAR_KHR

/-- The guard of the first branch of chooseSwapSurfaceFormat:
availableFormats.size() == 1 and availableFormats[0].format ==
VK_FORMAT_UNDEFINED. -/
def singleUndefined (availableFormats : List SurfaceFormatKHR) : Bool :=
  match availableFormats with
  | [f] => f.format == VK_FORMAT_UNDEFINED
  | _ => false

/-- HelloTriangleApplication::chooseSwapSurfaceFormat: preferred pair when
the list is a single entry with undefined format; otherwise the first
entry equal to the preferred pair; otherwise availableFormats[0].  The
final indexing is out of bounds on an empty list (undefined behaviour in
the source), modelled here by head? returning none. -/
def chooseSwapSurfaceFormat (availableFormats : List SurfaceFormatKHR) : Option SurfaceFormatKHR :=
  if singleUndefined availableFormats then some preferredSurfaceFormat
  else
    match availableFormats.find? isPreferredFormat with
    | some f => some f
    | none => availableFormats.head?

/-- HelloTriangleApplication::chooseSwapExtent, with the WIDTH and HEIGHT
constants of the application abstracted as the appWidth and appHeight
parameters (the source instantiates them with WIDTH = 800, HEIGHT = 600):
return currentExtent verbatim unless its width is the any-size sentinel,
else clamp the window dimensions into the min and max image extents. -/
def chooseSwapExtent (appWidth appHeight : Nat) (capabilities : SurfaceCapabilitiesKHR) : Extent2D :=
  if capabilities.currentExtent.width ≠ UINT32_MAX then
    capabilities.currentExtent
  else
    { width := max capabilities.minImageExtent.width (min capabilities.maxImageExtent.width appWidth),
      height := max capabilities.minImageExtent.height (min capabilities.maxImageExtent.height appHeight) }

/-- The swapchain image count computation at the top of
HelloTriangleApplication::createSwapChain: minImageCount + 1, lowered to
maxImageCount when a nonzero maximum is declared and exceeded. -/
def swapChainImageCount (capabilities : SurfaceCapabilitiesKHR) : Nat :=
  let imageCount := capabilities.minImageCount + 1
  if capabilities.maxImageCount > 0 ∧ imageCount > capabilities.maxImageCount then
    capabilities.maxImageCount
  else imageCount

/-- Clamping x into the closed interval from lo to hi, written the way the
specification describes the operation. -/
def specClamp (lo hi x : Nat) : Nat :=
  if x < lo then lo else if hi < x then hi else x

/-! ### Concrete device snapshots used as inputs below -/

/-- A suitable discrete GPU with one queue family serving both graphics
and presentation, maxImageDimension2D 4096. -/
def devDiscreteUnified : PhysicalDevice :=
  { geometryShader := true
    deviceType := VK_PHYSICAL_DEVICE_TYPE_DISCRETE_GPU
    maxImageDimension2D := 4096
    queueFamilies := [⟨1, 1, true⟩]
    availableExtensions := [VK_KHR_SWAPCHAIN_EXTENSION_NAME]
    formats := [⟨44, 0⟩]
    presentModes := [2] }

/-- A suitable integrated GPU with a graphics-only family at index 0 and a
present-only family at index 1, maxImageDimension2D 4096. -/
def devIntegratedSplit : PhysicalDevice :=
  { geometryShader := true
    deviceType := 1
    maxImageDimension2D := 4096
    queueFamilies := [⟨1, 1, false⟩, ⟨1, 0, true⟩]
    availableExtensions := [VK_KHR_SWAPCHAIN_EXTENSION_NAME]
    formats := [⟨44, 0⟩]
    presentModes := [2] }

/-- A device without the geometry-shader feature but with every other
capability present, including a very large maxImageDimension2D. -/
def devNoGeometry : PhysicalDevice :=
  { geometryShader := false
    deviceType := VK_PHYSICAL_DEVICE_TYPE_DISCRETE_GPU
    maxImageDimension2D := 99999
    queueFamilies := [⟨1, 1, true⟩]
    availableExtensions := [VK_KHR_SWAPCHAIN_EXTENSION_NAME]
    formats := [⟨44, 0⟩]
    presentModes := [2] }

/-- A device whose family 0 supports graphics only and whose family 1
supports both graphics and presentation. -/
def devGraphicsThenBoth : PhysicalDevice :=
  { queueFamilies := [⟨1, 1, false⟩, ⟨1, 1, true⟩] }

/-- A capability snapshot with the any-size current extent sentinel and
image extent bounds 400 x 300 to 1920 x 1080. -/
def capsAnySize : SurfaceCapabilitiesKHR :=
  { minImageCount := 2
    maxImageCount := 0
    currentExtent := ⟨UINT32_MAX, UINT32_MAX⟩
    minImageExtent := ⟨400, 300⟩
    maxImageExtent := ⟨1920, 1080⟩ }

/-- A capability snapshot declaring minImageCount 2 and maxImageCount 3. -/
def capsBoundedCount : SurfaceCapabilitiesKHR :=
  { minImageCount := 2
    maxImageCount := 3
    currentExtent := ⟨640, 480⟩
    minImageExtent := ⟨1, 1⟩
    maxImageExtent := ⟨4096, 4096⟩ }

/-- A capability snapshot declaring minImageCount 2 and no maximum. -/
def capsUnboundedCount : SurfaceCapabilitiesKHR :=
  { minImageCount := 2
    maxImageCount := 0
    currentExtent := ⟨640, 480⟩
    minImageExtent := ⟨1, 1⟩
    maxImageExtent := ⟨4096, 4096⟩ }

/-! ### Theorems -/

/-- Claim C3: releasing a VDeleter holding a non-null handle twice in a
row performs exactly one native-destroy call, because the first release
resets the stored handle to the null sentinel and releasing a null handle
performs no destroy call. -/
theorem cleanup_double_release (s : VDeleter) (h : s.object ≠ VK_NULL_HANDLE) :
    (s.cleanup.2 + s.cleanup.1.cleanup.2 = 1) ∧ s.cleanup.1.object = VK_NULL_HANDLE := by
  simp [VDeleter.cleanup, h]

/-- Witness for cleanup_double_release at the concrete handle 5. -/
theorem cleanup_double_release_witness :
    ((VDeleter.mk 5).cleanup.2 + (VDeleter.mk 5).cleanup.1.cleanup.2 = 1)
      ∧ (VDeleter.mk 5).cleanup.1.object = VK_NULL_HANDLE :=
  cleanup_double_release ⟨5⟩ (by decide)

/-- Claim C6: createLogicalDevice builds exactly one queue-create-info per
distinct queue-family index among the graphics and present roles: one when
the two indices are equal, two when they differ. -/
theorem createLogicalDevice_queue_info_count (d : PhysicalDevice) :
    ((findQueueFamilies d).graphicsFamily = (findQueueFamilies d).presentFamily →
        (createQueueCreateInfos d).length = 1)
      ∧ ((findQueueFamilies d).graphicsFamily ≠ (findQueueFamilies d).presentFamily →
        (createQueueCreateInfos d).length = 2) := by
  constructor
  · intro h
    simp [createQueueCreateInfos, uniqueQueueFamilies, h]
  · intro h
    simp only [createQueueCreateInfos, uniqueQueueFamilies, List.length_map]
    rw [if_neg h]
    by_cases hlt : (findQueueFamilies d).graphicsFamily < (findQueueFamilies d).presentFamily
    · rw [if_pos hlt]; rfl
    · rw [if_neg hlt]; rfl

/-- Witness for createLogicalDevice_queue_info_count: the unified-family
device yields one queue-create-info and the split-family device two. -/
theorem createLogicalDevice_queue_info_count_witness :
    (createQueueCreateInfos devDiscreteUnified).length = 1
      ∧ (createQueueCreateInfos devIntegratedSplit).length = 2 :=
  ⟨(createLogicalDevice_queue_info_count devDiscreteUnified).1 (by decide),
   (createLogicalDevice_queue_info_count devIntegratedSplit).2 (by decide)⟩

/-- Claim C9: the requested swapchain image count is minImageCount + 1,
reduced to maxImageCount exactly when a nonzero maximum is declared that
minImageCount + 1 exceeds; with maxImageCount 0 the count is used
unchanged. -/
theorem swapChainImageCount_spec (capabilities : SurfaceCapabilitiesKHR) :
    (capabilities.maxImageCount = 0 →
        swapChainImageCount capabilities = capabilities.minImageCount + 1)
      ∧ (capabilities.maxImageCount ≠ 0 →
        swapChainImageCount capabilities
          = min (capabilities.minImageCount + 1) capabilities.maxImageCount) := by
  constructor
  · intro h
    simp [swapChainImageCount, h]
  · intro h
    simp only [swapChainImageCount]
    split
    · omega
    · omega

/-- Witness for swapChainImageCount_spec: the bounded snapshot yields
min 3 3 = 3, the unbounded one yields 2 + 1 = 3. -/
theorem swapChainImageCount_spec_witness :
    swapChainImageCount capsBoundedCount = min (2 + 1) 3
      ∧ swapChainImageCount capsUnboundedCount = 2 + 1 :=
  ⟨(swapChainImageCount_spec capsBoundedCount).2 (by decide),
   (swapChainImageCount_spec capsUnboundedCount).1 (by decide)⟩

/-- Claim C1 (code-bug evidence): with the enumeration consisting of an
unsuitable device (score 0) followed by a suitable discrete device (score
5197), pickPhysicalDevice reads the entry at candidates.begin() in the
ascending map — the LOWEST score — and therefore throws the
no-suitable-GPU error even though the maximum score is positive, contrary
to the claim that it selects the highest-scoring candidate and fails only
when the maximum score is 0.  The empty-enumeration clause of the claim
does hold. -/
theorem pickPhysicalDevice_lowest_score_bug :
    pickPhysicalDevice [devNoGeometry, devDiscreteUnified]
        = Except.error "failed to find a suitable GPU!"
      ∧ rateDeviceSuitability devNoGeometry = 0
      ∧ rateDeviceSuitability devDiscreteUnified = 5197
      ∧ pickPhysicalDevice [] = Except.error "failed to find GPUs with Vulkan support!" :=
  ⟨rfl, by decide, by decide, rfl⟩

/-- Claim C2 counterexample: on a device whose family 0 supports graphics
only and whose family 1 supports graphics and presentation, the first
graphics-capable index is 0, yet findQueueFamilies records graphicsFamily
1 — a later graphics match overwrites the earlier one — refuting the
first-match-wins reading of the claim. -/
theorem findQueueFamilies_overwrites_first_graphics :
    findQueueFamilies devGraphicsThenBoth = { graphicsFamily := 1, presentFamily := 1 }
      ∧ devGraphicsThenBoth.queueFamilies.findIdx? hasGraphics = some 0 :=
  ⟨by decide, by decide⟩

lemma max_min_eq_specClamp (lo hi x : Nat) (h : lo ≤ hi) :
    max lo (min hi x) = specClamp lo hi x := by
  unfold specClamp
  split_ifs <;> omega

/-- Claim C8: chooseSwapExtent returns currentExtent verbatim whenever its
width differs from the any-size sentinel; otherwise it returns the
requested window width and height each independently clamped into the
interval from minImageExtent to maxImageExtent. -/
theorem chooseSwapExtent_spec (appWidth appHeight : Nat) (capabilities : SurfaceCapabilitiesKHR) :
    (capabilities.currentExtent.width ≠ UINT32_MAX →
        chooseSwapExtent appWidth appHeight capabilities = capabilities.currentExtent)
      ∧ (capabilities.currentExtent.width = UINT32_MAX →
          capabilities.minImageExtent.width ≤ capabilities.maxImageExtent.width →
          capabilities.minImageExtent.height ≤ capabilities.maxImageExtent.height →
          chooseSwapExtent appWidth appHeight capabilities =
            { width := specClamp capabilities.minImageExtent.width
                capabilities.maxImageExtent.width appWidth,
              height := specClamp capabilities.minImageExtent.height
                capabilities.maxImageExtent.height appHeight }) := by
  constructor
  · intro h
    simp [chooseSwapExtent, h]
  · intro h hw hh
    simp [chooseSwapExtent, h, max_min_eq_specClamp _ _ _ hw, max_min_eq_specClamp _ _ _ hh]

/-- Witness for chooseSwapExtent_spec at the any-size capability snapshot
with bounds 400 x 300 to 1920 x 1080: request 3000 x 100 clamps per axis
to 1920 x 300, request 800 x 600 passes through. -/
theorem chooseSwapExtent_spec_witness :
    chooseSwapExtent 3000 100 capsAnySize = ⟨1920, 300⟩
      ∧ chooseSwapExtent 800 600 capsAnySize = ⟨800, 600⟩ := by
  constructor
  · have h := (chooseSwapExtent_spec 3000 100 capsAnySize).2 rfl (by decide) (by decide)
    rw [h]; decide
  · have h := (chooseSwapExtent_spec 800 600 capsAnySize).2 rfl (by decide) (by decide)
    rw [h]; decide

lemma foldl_erase_eq_filter (avail : List String) :
    ∀ req : List String,
      avail.foldl (fun requiredExtensions ext => requiredExtensions.filter (fun r => !(r == ext))) req
        = req.filter (fun r => !(avail.contains r)) := by
  induction avail with
  | nil =>
      intro req
      simp
  | cons e rest ih =>
      intro req
      simp only [List.foldl_cons, ih, List.filter_filter]
      congr 1
      funext r
      by_cases hre : r = e
      · subst hre; simp
      · simp [hre]

lemma checkDeviceExtensionSupport_iff (d : PhysicalDevice) :
    checkDeviceExtensionSupport d = true ↔ ∀ e ∈ deviceExtensions, e ∈ d.availableExtensions := by
  unfold checkDeviceExtensionSupport
  rw [foldl_erase_eq_filter]
  simp [List.isEmpty_iff, List.filter_eq_nil_iff]

/-- Claim C4: on a suitable candidate rateDeviceSuitability returns 1,
plus 100 when the graphics and present family indices coincide, plus 1000
when the device type is discrete, plus maxImageDimension2D; on an
unsuitable candidate it returns 0; and a suitable discrete accelerator
with a unified family scores strictly higher than a suitable
non-discrete one with split families and the same capability limit. -/
theorem rateDeviceSuitability_spec (d e : PhysicalDevice) :
    (isDeviceSuitable d = false → rateDeviceSuitability d = 0)
      ∧ (isDeviceSuitable d = true →
          rateDeviceSuitability d
            = 1 + (if (findQueueFamilies d).graphicsFamily
                      = (findQueueFamilies d).presentFamily then 100 else 0)
                + (if d.deviceType = VK_PHYSICAL_DEVICE_TYPE_DISCRETE_GPU then 1000 else 0)
                + (d.maxImageDimension2D : Int))
      ∧ (isDeviceSuitable d = true → isDeviceSuitable e = true →
          d.deviceType = VK_PHYSICAL_DEVICE_TYPE_DISCRETE_GPU →
          (findQueueFamilies d).graphicsFamily = (findQueueFamilies d).presentFamily →
          e.deviceType ≠ VK_PHYSICAL_DEVICE_TYPE_DISCRETE_GPU →
          (findQueueFamilies e).graphicsFamily ≠ (findQueueFamilies e).presentFamily →
          e.maxImageDimension2D = d.maxImageDimension2D →
          rateDeviceSuitability e < rateDeviceSuitability d) := by
  refine ⟨?_, ?_, ?_⟩
  · intro h
    simp [rateDeviceSuitability, h]
  · intro h
    simp only [rateDeviceSuitability, h, Bool.not_true, Bool.false_eq_true, if_false]
    split_ifs <;> ring
  · intro hd he hdt hdu het heu hm
    simp only [rateDeviceSuitability, hd, he, Bool.not_true, Bool.false_eq_true, if_false]
    rw [if_pos hdu, if_pos hdt, if_neg heu, if_neg het, hm]
    omega

/-- Witness for rateDeviceSuitability_spec: the geometry-shader-less
device scores 0 despite a huge image dimension, and the suitable
integrated split-family device scores strictly below the suitable
discrete unified-family device with the same image dimension. -/
theorem rateDeviceSuitability_spec_witness :
    rateDeviceSuitability devNoGeometry = 0
      ∧ rateDeviceSuitability devIntegratedSplit < rateDeviceSuitability devDiscreteUnified :=
  ⟨(rateDeviceSuitability_spec devNoGeometry devNoGeometry).1 (by decide),
   (rateDeviceSuitability_spec devDiscreteUnified devIntegratedSplit).2.2
     (by decide) (by decide) rfl (by decide) (by decide) (by decide) rfl⟩

/-- Claim C5: isDeviceSuitable is true exactly when the candidate has the
geometry-shader feature, complete queue family indices, every required
device extension available, and nonempty surface-format and present-mode
lists; and a candidate without the geometry-shader feature always rates
0. -/
theorem isDeviceSuitable_iff (d : PhysicalDevice) :
    (isDeviceSuitable d = true ↔
        d.geometryShader = true
          ∧ (findQueueFamilies d).isComplete = true
          ∧ (∀ e ∈ deviceExtensions, e ∈ d.availableExtensions)
          ∧ (querySwapChainSupport d).formats ≠ []
          ∧ (querySwapChainSupport d).presentModes ≠ [])
      ∧ (d.geometryShader = false → rateDeviceSuitability d = 0) := by
  constructor
  · rw [← checkDeviceExtensionSupport_iff]
    unfold isDeviceSuitable querySwapChainSupport
    cases hg : d.geometryShader
    · simp
    · by_cases hext : checkDeviceExtensionSupport d = true
      · simp [hext, List.isEmpty_iff, and_assoc]
      · simp [hext]
  · intro hg
    have hsuit : isDeviceSuitable d = false := by
      unfold isDeviceSuitable
      simp [hg]
    simp [rateDeviceSuitability, hsuit]

/-- Witness for isDeviceSuitable_iff: the geometry-shader-less device
rates 0, and the discrete unified device satisfies all four conditions. -/
theorem isDeviceSuitable_iff_witness :
    rateDeviceSuitability devNoGeometry = 0 ∧ isDeviceSuitable devDiscreteUnified = true :=
  ⟨(isDeviceSuitable_iff devNoGeometry).2 rfl,
   (isDeviceSuitable_iff devDiscreteUnified).1.mpr
     ⟨rfl, by decide, by decide, by decide, by decide⟩⟩

/-- Claim C7: on a nonempty format list, chooseSwapSurfaceFormat returns
the fixed preferred pair whenever the list is exactly one entry whose
format is the undefined sentinel (for any color space); otherwise the
first entry equal to the preferred pair when one exists; otherwise the
first entry of the list. -/
theorem chooseSwapSurfaceFormat_spec (fs : List SurfaceFormatKHR) (hne : fs ≠ []) :
    (∀ c, fs = [{ format := VK_FORMAT_UNDEFINED, colorSpace := c }] →
        chooseSwapSurfaceFormat fs = some preferredSurfaceFormat)
      ∧ ((∀ c, fs ≠ [{ format := VK_FORMAT_UNDEFINED, colorSpace := c }]) →
          (∀ f, fs.find? isPreferredFormat = some f →
              chooseSwapSurfaceFormat fs = some f)
            ∧ (fs.find? isPreferredFormat = none →
              chooseSwapSurfaceFormat fs = fs.head?)) := by
  constructor
  · rintro c rfl
    simp [chooseSwapSurfaceFormat, singleUndefined]
  · intro hno
    have hsu : singleUndefined fs = false := by
      cases fs with
      | nil => rfl
      | cons f rest =>
        cases rest with
        | nil =>
          obtain ⟨fmt, cs⟩ := f
          by_cases hf : fmt = VK_FORMAT_UNDEFINED
          · subst hf
            exact absurd rfl (hno cs)
          · simp [singleUndefined, hf]
        | cons g rest2 => rfl
    constructor
    · intro f hf
      simp [chooseSwapSurfaceFormat, hsu, hf]
    · intro hf
      simp [chooseSwapSurfaceFormat, hsu, hf]

/-- Witness for chooseSwapSurfaceFormat_spec: the single undefined-format
entry with color space 5 is replaced by the fixed preferred pair. -/
theorem chooseSwapSurfaceFormat_spec_witness :
    chooseSwapSurfaceFormat [{ format := VK_FORMAT_UNDEFINED, colorSpace := 5 }]
      = some preferredSurfaceFormat :=
  (chooseSwapSurfaceFormat_spec [{ format := VK_FORMAT_UNDEFINED, colorSpace := 5 }]
    (by decide)).1 5 rfl

/-- Claim C10: the fallback of chooseSwapSurfaceFormat indexes element 0
of the list, which is out of bounds (modelled as none) exactly when the
list is empty; and isDeviceSuitable establishes the nonempty-formats
precondition that makes the fallback safe for the selected device. -/
theorem chooseSwapSurfaceFormat_none_iff_empty :
    (∀ fs : List SurfaceFormatKHR, chooseSwapSurfaceFormat fs = none ↔ fs = [])
      ∧ (∀ d : PhysicalDevice, isDeviceSuitable d = true →
          (querySwapChainSupport d).formats ≠ []) := by
  constructor
  · intro fs
    cases fs with
    | nil => simp [chooseSwapSurfaceFormat, singleUndefined]
    | cons f rest =>
      have hne : chooseSwapSurfaceFormat (f :: rest) ≠ none := by
        unfold chooseSwapSurfaceFormat
        split
        · exact fun h => Option.noConfusion h
        · rcases hfind : (f :: rest).find? isPreferredFormat with _ | g <;> simp [hfind]
      simp [hne]
  · intro d h
    unfold isDeviceSuitable at h
    by_cases hg : d.geometryShader
    · simp only [hg, Bool.not_true, Bool.false_eq_true, if_false, Bool.and_eq_true] at h
      obtain ⟨⟨hcomp, hext⟩, hadq⟩ := h
      rw [if_pos hext] at hadq
      simp only [querySwapChainSupport, Bool.and_eq_true, Bool.not_eq_true'] at hadq ⊢
      intro hnil
      rw [hnil] at hadq
      simp at hadq
    · simp [hg] at h

/-- Witness for chooseSwapSurfaceFormat_none_iff_empty: the empty list
yields none, and the suitable discrete device has a nonempty format
list. -/
theorem chooseSwapSurfaceFormat_none_iff_empty_witness :
    chooseSwapSurfaceFormat ([] : List SurfaceFormatKHR) = none
      ∧ (querySwapChainSupport devDiscreteUnified).formats ≠ [] :=
  ⟨(chooseSwapSurfaceFormat_none_iff_empty.1 []).mpr rfl,
   chooseSwapSurfaceFormat_none_iff_empty.2 devDiscreteUnified (by decide)⟩

lemma findQueueFamiliesAux_lastMatch (fams : List QueueFamilyProperties) :
    ∀ (i : Int) (ind : QueueFamilyIndices), 0 ≤ i →
      findQueueFamiliesAux fams i ind =
        { graphicsFamily :=
            lastRoleIdx hasGraphics
              (fams.take (stopCount fams (decide (ind.graphicsFamily ≥ 0))
                (decide (ind.presentFamily ≥ 0)))) i ind.graphicsFamily,
          presentFamily :=
            lastRoleIdx hasPresent
              (fams.take (stopCount fams (decide (ind.graphicsFamily ≥ 0))
                (decide (ind.presentFamily ≥ 0)))) i ind.presentFamily } := by
  induction fams with
  | nil =>
      intro i ind hi
      simp [findQueueFamiliesAux, stopCount, lastRoleIdx]
  | cons qf rest ih =>
      intro i ind hi
      obtain ⟨g, p⟩ := ind
      have hdi : decide ((i : Int) ≥ 0) = true := decide_eq_true hi
      by_cases hG : hasGraphics qf = true <;> by_cases hP : hasPresent qf = true
      · simp [findQueueFamiliesAux, stopCount, lastRoleIdx,
          QueueFamilyIndices.isComplete, hG, hP, hdi]
      · by_cases hp : (p : Int) ≥ 0
        · have hpd : decide ((p : Int) ≥ 0) = true := decide_eq_true hp
          simp [findQueueFamiliesAux, stopCount, lastRoleIdx,
            QueueFamilyIndices.isComplete, hG, hP, hdi, hpd]
        · have hpd : decide ((p : Int) ≥ 0) = false := decide_eq_false hp
          have ih' := ih (i + 1) ⟨i, p⟩ (by omega)
          simp only [hdi, hpd] at ih'
          simp [findQueueFamiliesAux, stopCount, lastRoleIdx,
            QueueFamilyIndices.isComplete, hG, hP, hdi, hpd, ih']
      · by_cases hg : (g : Int) ≥ 0
        · have hgd : decide ((g : Int) ≥ 0) = true := decide_eq_true hg
          simp [findQueueFamiliesAux, stopCount, lastRoleIdx,
            QueueFamilyIndices.isComplete, hG, hP, hdi, hgd]
        · have hgd : decide ((g : Int) ≥ 0) = false := decide_eq_false hg
          have ih' := ih (i + 1) ⟨g, i⟩ (by omega)
          simp only [hdi, hgd] at ih'
          simp [findQueueFamiliesAux, stopCount, lastRoleIdx,
            QueueFamilyIndices.isComplete, hG, hP, hdi, hgd, ih']
      · by_cases hg : (g : Int) ≥ 0 <;> by_cases hp : (p : Int) ≥ 0
        · have hgd : decide ((g : Int) ≥ 0) = true := decide_eq_true hg
          have hpd : decide ((p : Int) ≥ 0) = true := decide_eq_true hp
          simp [findQueueFamiliesAux, stopCount, lastRoleIdx,
            QueueFamilyIndices.isComplete, hG, hP, hgd, hpd]
        · have hgd : decide ((g : Int) ≥ 0) = true := decide_eq_true hg
          have hpd : decide ((p : Int) ≥ 0) = false := decide_eq_false hp
          have ih' := ih (i + 1) ⟨g, p⟩ (by omega)
          simp only [hgd, hpd] at ih'
          simp [findQueueFamiliesAux, stopCount, lastRoleIdx,
            QueueFamilyIndices.isComplete, hG, hP, hgd, hpd, ih']
        · have hgd : decide ((g : Int) ≥ 0) = false := decide_eq_false hg
          have hpd : decide ((p : Int) ≥ 0) = true := decide_eq_true hp
          have ih' := ih (i + 1) ⟨g, p⟩ (by omega)
          simp only [hgd, hpd] at ih'
          simp [findQueueFamiliesAux, stopCount, lastRoleIdx,
            QueueFamilyIndices.isComplete, hG, hP, hgd, hpd, ih']
        · have hgd : decide ((g : Int) ≥ 0) = false := decide_eq_false hg
          have hpd : decide ((p : Int) ≥ 0) = false := decide_eq_false hp
          have ih' := ih (i + 1) ⟨g, p⟩ (by omega)
          simp only [hgd, hpd] at ih'
          simp [findQueueFamiliesAux, stopCount, lastRoleIdx,
            QueueFamilyIndices.isComplete, hG, hP, hgd, hpd, ih']

/-- Claim C2 (amended): findQueueFamilies examines the queue families in
index order up to and including the first index at which both roles have
been matched (the whole list when that never happens) and records, for
each role independently, the LAST matching index within that examined
prefix, or -1 when the prefix contains no match for the role: a later
match overwrites an earlier one, and the scan stops early once both
roles are assigned. -/
theorem findQueueFamilies_last_match (d : PhysicalDevice) :
    findQueueFamilies d =
      { graphicsFamily :=
          lastRoleIdx hasGraphics
            (d.queueFamilies.take (stopCount d.queueFamilies false false)) 0 (-1),
        presentFamily :=
          lastRoleIdx hasPresent
            (d.queueFamilies.take (stopCount d.queueFamilies false false)) 0 (-1) } := by
  have h := findQueueFamiliesAux_lastMatch d.queueFamilies 0 ⟨-1, -1⟩ (le_refl 0)
  have hneg : decide ((-1 : Int) ≥ 0) = false := by decide
  rw [hneg] at h
  exact h

end VulkanTest
